import Mathlib

/-!
Verification of the 321Convert conversion service core: the converter
registry and dispatch (`core/converter_factory.py`), the transient artifact
lifecycle manager and conversion web routes of `app.py`, and the
`compress_pdf` quality fallback (`conversions/pdf_converter.py`).

Python dictionaries are modelled as association lists with Python's
insertion semantics: assigning to an existing key updates it in place,
assigning to a fresh key appends it.  Machine time stamps (`time.time()`)
are modelled as integers.  The filesystem is modelled as a finite map
from path to file content.

A load-bearing fact about `app.py`: its line 1 (`# import os`) and its
line 11 (the `ConverterFactory` import) are commented out, and the
star import from `conversions` honours an `__all__` that exports only
the three converter modules — so every `os.*` reference and every
`ConverterFactory` reference inside `app.py` raises `NameError` at run
time.  The file therefore holds two models of the affected code: the
`..._actual` definitions embed the code as it actually executes (the
`NameError` paths), while `removeExpired` / `cleanup_files_sweep` embed
the removal loop under the intended semantics, as if the `os` import
were restored; the latter is used only for the boundary-age claim, which
holds under both semantics (the intended model removes strictly more
than the real code, so it is the adversarial model for a claim that an
artifact is KEPT).  Modules that do import what they use
(`converter_factory.py`, `pdf_converter.py`) are modelled directly.
-/

/-- A Python `dict` as an association list (insertion order preserved). -/
abbrev Dict (α : Type) := List (String × α)

/-- `d[k] = v` on a Python dict: update the existing entry in place,
or append a fresh one. -/
def dictInsert {α : Type} (d : Dict α) (k : String) (v : α) : Dict α :=
  match d with
  | [] => [(k, v)]
  | (k0, v0) :: rest =>
    if k0 = k then (k, v) :: rest else (k0, v0) :: dictInsert rest k v

/-- `d.get(k)` / `d[k]` read on a Python dict. -/
def dictLookup {α : Type} (d : Dict α) (k : String) : Option α :=
  match d with
  | [] => none
  | (k0, v0) :: rest => if k0 = k then some v0 else dictLookup rest k

/-- `d.pop(k, None)`: remove the entry at `k` when present. -/
def dictPop {α : Type} (d : Dict α) (k : String) : Dict α :=
  match d with
  | [] => []
  | (k0, v0) :: rest => if k0 = k then rest else (k0, v0) :: dictPop rest k

/-- The filesystem: a finite map from absolute path to file content. -/
abbrev FS := List (String × String)

/-- A handler result in the source is either a single output path /
inline text (a Python `str`) or an ordered list of output paths. -/
inductive PyValue where
  | pstr : String → PyValue
  | plist : List String → PyValue
  deriving DecidableEq

namespace ConverterFactory

/-- `ConverterFactory._converters`: operation name to handler.  A handler
takes the input path and the keyword-argument bag and may read and write
the filesystem (state-passing). -/
abbrev Registry (κ : Type) := List (String × (String → κ → FS → PyValue × FS))

/-- `ConverterFactory.register`: plain dict assignment, so re-registration
silently overwrites (last writer wins) and raises no error. -/
def register {κ : Type} (reg : Registry κ) (conversion_type : String)
    (converter_func : String → κ → FS → PyValue × FS) : Registry κ :=
  dictInsert reg conversion_type converter_func

/-- `ConverterFactory.convert`: raise `ValueError` when the name is not a
key of `_converters` (before any handler runs, filesystem untouched),
otherwise call the registered handler and return its result verbatim. -/
def convert {κ : Type} (reg : Registry κ) (conversion_type : String)
    (input_path : String) (kwargs : κ) (fs : FS) : Except String PyValue × FS :=
  match dictLookup reg conversion_type with
  | none => (Except.error ("No converter registered for type: " ++ conversion_type), fs)
  | some f =>
    let r := f input_path kwargs fs
    (Except.ok r.1, r.2)

end ConverterFactory

-- Helper lemmas on the dict model (shared by several claims).

theorem dictLookup_dictInsert_self {α : Type} (d : Dict α) (k : String) (v : α) :
    dictLookup (dictInsert d k v) k = some v := by
  induction d with
  | nil => simp [dictInsert, dictLookup]
  | cons hd tl ih =>
    obtain ⟨k0, v0⟩ := hd
    by_cases hk : k0 = k
    · simp [dictInsert, dictLookup, hk]
    · simp [dictInsert, dictLookup, hk, ih]

theorem dictLookup_dictInsert_ne {α : Type} (d : Dict α) (k j : String) (v : α)
    (h : j ≠ k) : dictLookup (dictInsert d k v) j = dictLookup d j := by
  induction d with
  | nil => simp [dictInsert, dictLookup, Ne.symm h]
  | cons hd tl ih =>
    obtain ⟨k0, v0⟩ := hd
    by_cases hk : k0 = k
    · subst hk
      simp [dictInsert, dictLookup, Ne.symm h]
    · by_cases hj : k0 = j
      · simp [dictInsert, dictLookup, hk, hj, h]
      · simp [dictInsert, dictLookup, hk, hj, ih]

theorem count_keys_dictInsert {α : Type} (d : Dict α) (k : String) (v : α) :
    ((dictInsert d k v).map Prod.fst).count k =
      if (d.map Prod.fst).count k = 0 then 1 else (d.map Prod.fst).count k := by
  induction d with
  | nil => simp [dictInsert]
  | cons hd tl ih =>
    obtain ⟨k0, v0⟩ := hd
    by_cases hk : k0 = k
    · subst hk
      simp [dictInsert, List.count_cons]
    · simp only [dictInsert, if_neg hk, List.map_cons, List.count_cons, ih]
      by_cases h0 : (tl.map Prod.fst).count k = 0
      · simp [h0, hk]
      · simp [h0, hk]

theorem count_keys_le_one_of_nodup {α : Type} (d : Dict α) (k : String)
    (h : (d.map Prod.fst).Nodup) : (d.map Prod.fst).count k ≤ 1 :=
  List.nodup_iff_count_le_one.mp h k

/-- C1: for every operation name that is not a key of the registry,
`ConverterFactory.convert` returns the unknown-operation error
(`ValueError: No converter registered for type: ...`); the error branch
returns before any handler is looked at, and the filesystem component of
the state is returned unchanged, so no filesystem write occurs. -/
theorem convert_unknown_operation {κ : Type} (reg : ConverterFactory.Registry κ)
    (n input_path : String) (kwargs : κ) (fs : FS)
    (h : dictLookup reg n = none) :
    ConverterFactory.convert reg n input_path kwargs fs =
      (Except.error ("No converter registered for type: " ++ n), fs) := by
  simp [ConverterFactory.convert, h]

theorem convert_unknown_operation_witness :
    dictLookup ([] : ConverterFactory.Registry Unit) "png_to_jpg" = none ∧
    ConverterFactory.convert ([] : ConverterFactory.Registry Unit)
        "png_to_jpg" "in.png" () [] =
      (Except.error "No converter registered for type: png_to_jpg", []) :=
  ⟨rfl, convert_unknown_operation [] "png_to_jpg" "in.png" () [] rfl⟩

/-- C2: for every registered operation with handler `f`, `convert` returns
exactly the handler's result and resulting filesystem, with no reshaping
between result tags; in particular a one-element list result is returned
as that list and never collapsed to a single path. -/
theorem convert_returns_handler_result {κ : Type} (reg : ConverterFactory.Registry κ)
    (n input_path : String) (kwargs : κ) (fs : FS)
    (f : String → κ → FS → PyValue × FS)
    (h : dictLookup reg n = some f) :
    ConverterFactory.convert reg n input_path kwargs fs =
      (Except.ok (f input_path kwargs fs).1, (f input_path kwargs fs).2) ∧
    ∀ x : String, (f input_path kwargs fs).1 = PyValue.plist [x] →
      (ConverterFactory.convert reg n input_path kwargs fs).1 =
        Except.ok (PyValue.plist [x]) := by
  constructor
  · simp [ConverterFactory.convert, h]
  · intro x hx
    simp [ConverterFactory.convert, h, hx]

/-- A one-element-list handler used to instantiate C2 concretely. -/
def splitHandler : String → Unit → FS → PyValue × FS :=
  fun _ _ fs => (PyValue.plist ["split_1.pdf"], fs)

theorem convert_returns_handler_result_witness :
    dictLookup [("split_pdf", splitHandler)] "split_pdf" = some splitHandler ∧
    (ConverterFactory.convert [("split_pdf", splitHandler)]
        "split_pdf" "in.pdf" () []).1 =
      Except.ok (PyValue.plist ["split_1.pdf"]) :=
  ⟨rfl,
   (convert_returns_handler_result [("split_pdf", splitHandler)]
      "split_pdf" "in.pdf" () [] splitHandler rfl).2 "split_1.pdf" rfl⟩

/-- C3: registering the same name twice raises no error (`register` is a
total dict assignment), leaves exactly one registry entry for that name,
and a subsequent lookup or `convert` uses the second handler. -/
theorem register_last_writer_wins {κ : Type} (reg : ConverterFactory.Registry κ)
    (n : String) (f1 f2 : String → κ → FS → PyValue × FS)
    (hnd : (reg.map Prod.fst).Nodup) :
    ((ConverterFactory.register (ConverterFactory.register reg n f1) n f2).map
        Prod.fst).count n = 1 ∧
    dictLookup (ConverterFactory.register (ConverterFactory.register reg n f1) n f2)
        n = some f2 ∧
    ∀ (input_path : String) (kwargs : κ) (fs : FS),
      ConverterFactory.convert
          (ConverterFactory.register (ConverterFactory.register reg n f1) n f2)
          n input_path kwargs fs =
        (Except.ok (f2 input_path kwargs fs).1, (f2 input_path kwargs fs).2) := by
  refine ⟨?_, ?_, ?_⟩
  · have h1 := count_keys_dictInsert reg n f1
    have h2 := count_keys_dictInsert (dictInsert reg n f1) n f2
    have hle := count_keys_le_one_of_nodup reg n hnd
    unfold ConverterFactory.register
    rw [h2, h1]
    by_cases h0 : (reg.map Prod.fst).count n = 0
    · simp [h0]
    · have : (reg.map Prod.fst).count n = 1 := by omega
      simp [this]
  · exact dictLookup_dictInsert_self _ n f2
  · intro input_path kwargs fs
    simp [ConverterFactory.convert, ConverterFactory.register,
      dictLookup_dictInsert_self]

theorem register_last_writer_wins_witness :
    (([] : ConverterFactory.Registry Unit).map Prod.fst).Nodup ∧
    dictLookup (ConverterFactory.register
        (ConverterFactory.register ([] : ConverterFactory.Registry Unit) "docx_to_pdf"
          (fun _ _ fs => (PyValue.pstr "a.pdf", fs)))
        "docx_to_pdf" (fun _ _ fs => (PyValue.pstr "b.pdf", fs))) "docx_to_pdf" =
      some (fun _ _ fs => (PyValue.pstr "b.pdf", fs)) :=
  ⟨List.nodup_nil,
   (register_last_writer_wins ([] : ConverterFactory.Registry Unit) "docx_to_pdf"
      (fun _ _ fs => (PyValue.pstr "a.pdf", fs))
      (fun _ _ fs => (PyValue.pstr "b.pdf", fs)) List.nodup_nil).2.1⟩

-- Artifact lifecycle manager (`app.py`).

/-- `FILE_EXPIRATION = 3600` seconds (1 hour). -/
def FILE_EXPIRATION : Int := 3600

/-- `file_tracker`: absolute path to last-touched timestamp. -/
abbrev Tracker := Dict Int

/-- `track_file(filepath)`: `file_tracker[filepath] = time.time()`. -/
def track_file (file_tracker : Tracker) (filepath : String) (now : Int) : Tracker :=
  dictInsert file_tracker filepath now

/-- First loop of one `cleanup_files` sweep: the tracked paths whose age
`current_time - timestamp` strictly exceeds `FILE_EXPIRATION`. -/
def expired_files (file_tracker : Tracker) (current_time : Int) : List String :=
  (file_tracker.filter
    (fun e => decide (current_time - e.2 > FILE_EXPIRATION))).map Prod.fst

/-- One iteration of the removal loop in `cleanup_files` under the
INTENDED semantics — as if the commented-out `os` import of `app.py`
were restored — translated with an explicit failure environment
`remove_fails` for `os.remove`:
`try: if os.path.exists(fp): os.remove(fp); file_tracker.pop(fp, None)
except: log`.  When `os.remove` raises, control jumps to `except` and the
`pop` is NOT executed; when the file is already gone, the `exists` guard
skips `os.remove` and the `pop` still runs.  As `app.py` stands, `os` is
not in scope and every iteration instead dies in `NameError` — see
`removeExpiredActual`.  This intended model removes strictly more than
the real code, which makes it the adversarial model for claims that an
artifact is kept. -/
def removeExpired (remove_fails : String → Bool) (st : FS × Tracker)
    (filepath : String) : FS × Tracker :=
  if (dictLookup st.1 filepath).isSome then
    if remove_fails filepath then st
    else (dictPop st.1 filepath, dictPop st.2 filepath)
  else (st.1, dictPop st.2 filepath)

/-- One full sweep of the `cleanup_files` background loop (the body
between two `time.sleep(300)` calls) under the intended semantics of
`removeExpired`; the sweep as it actually executes is
`cleanup_files_sweep_actual`. -/
def cleanup_files_sweep (remove_fails : String → Bool) (current_time : Int)
    (fs : FS) (file_tracker : Tracker) : FS × Tracker :=
  (expired_files file_tracker current_time).foldl
    (removeExpired remove_fails) (fs, file_tracker)

-- Further dict lemmas used by the lifecycle proofs.

theorem mem_of_dictLookup {α : Type} (d : Dict α) (k : String) (v : α)
    (h : dictLookup d k = some v) : (k, v) ∈ d := by
  induction d with
  | nil => simp [dictLookup] at h
  | cons hd tl ih =>
    obtain ⟨k0, v0⟩ := hd
    by_cases hk : k0 = k
    · subst hk
      simp [dictLookup] at h
      simp [h]
    · simp [dictLookup, hk] at h
      simp [ih h]

theorem dictLookup_of_mem_nodup {α : Type} (d : Dict α) (k : String) (v : α)
    (hnd : (d.map Prod.fst).Nodup) (h : (k, v) ∈ d) : dictLookup d k = some v := by
  induction d with
  | nil => simp at h
  | cons hd tl ih =>
    obtain ⟨k0, v0⟩ := hd
    simp at hnd
    rcases List.mem_cons.mp h with h | h
    · rw [Prod.mk.injEq] at h
      obtain ⟨h1, h2⟩ := h
      subst h1
      subst h2
      simp [dictLookup]
    · have hk : k0 ≠ k := by
        intro e
        subst e
        exact hnd.1 v h
      simp [dictLookup, hk, ih hnd.2 h]

theorem dictLookup_dictPop_ne {α : Type} (d : Dict α) (k j : String)
    (h : j ≠ k) : dictLookup (dictPop d k) j = dictLookup d j := by
  induction d with
  | nil => simp [dictPop]
  | cons hd tl ih =>
    obtain ⟨k0, v0⟩ := hd
    by_cases hk : k0 = k
    · subst hk
      simp [dictPop, dictLookup, Ne.symm h]
    · simp [dictPop, dictLookup, hk, ih]

theorem removeExpired_lookup_ne (remove_fails : String → Bool) (st : FS × Tracker)
    (p q : String) (h : q ≠ p) :
    dictLookup (removeExpired remove_fails st p).1 q = dictLookup st.1 q ∧
    dictLookup (removeExpired remove_fails st p).2 q = dictLookup st.2 q := by
  by_cases h1 : (dictLookup st.1 p).isSome
  · by_cases h2 : remove_fails p
    · simp [removeExpired, h1, h2]
    · simp [removeExpired, h1, h2, dictLookup_dictPop_ne _ _ _ h]
  · simp [removeExpired, h1, dictLookup_dictPop_ne _ _ _ h]

theorem sweep_foldl_not_mem (remove_fails : String → Bool) (l : List String)
    (st : FS × Tracker) (q : String) (hq : q ∉ l) :
    dictLookup (l.foldl (removeExpired remove_fails) st).1 q = dictLookup st.1 q ∧
    dictLookup (l.foldl (removeExpired remove_fails) st).2 q = dictLookup st.2 q := by
  induction l generalizing st with
  | nil => exact ⟨rfl, rfl⟩
  | cons a l ih =>
    simp only [List.foldl_cons]
    have hqa : q ≠ a := by
      intro e
      exact hq (by simp [e])
    have hql : q ∉ l := fun hl => hq (List.mem_cons_of_mem a hl)
    have hstep := removeExpired_lookup_ne remove_fails st a q hqa
    have htail := ih (removeExpired remove_fails st a) hql
    exact ⟨htail.1.trans hstep.1, htail.2.trans hstep.2⟩

theorem not_mem_expired_files (file_tracker : Tracker) (now : Int) (p : String)
    (T : Int) (hnd : (file_tracker.map Prod.fst).Nodup)
    (htr : dictLookup file_tracker p = some T)
    (hT : ¬ now - T > FILE_EXPIRATION) :
    p ∉ expired_files file_tracker now := by
  unfold expired_files
  intro hmem
  obtain ⟨e, he, hfst⟩ := List.mem_map.mp hmem
  obtain ⟨hetr, hpred⟩ := List.mem_filter.mp he
  have h1 : dictLookup file_tracker p = some e.2 := by
    rw [← hfst]
    exact dictLookup_of_mem_nodup _ _ _ hnd (by simpa using hetr)
  rw [htr] at h1
  have h2 : T = e.2 := Option.some.inj h1
  exact hT (h2 ▸ of_decide_eq_true hpred)

/-- C6: tracking the same path twice leaves exactly one tracking entry for
it, and its timestamp is the second call's time. -/
theorem track_file_twice (file_tracker : Tracker) (p : String) (t1 t2 : Int)
    (hnd : (file_tracker.map Prod.fst).Nodup) (hle : t1 ≤ t2) :
    ((track_file (track_file file_tracker p t1) p t2).map Prod.fst).count p = 1 ∧
    dictLookup (track_file (track_file file_tracker p t1) p t2) p = some t2 := by
  constructor
  · have h1 := count_keys_dictInsert file_tracker p t1
    have h2 := count_keys_dictInsert (dictInsert file_tracker p t1) p t2
    have hle1 := count_keys_le_one_of_nodup file_tracker p hnd
    unfold track_file
    rw [h2, h1]
    by_cases h0 : (file_tracker.map Prod.fst).count p = 0
    · simp [h0]
    · have he : (file_tracker.map Prod.fst).count p = 1 := by omega
      simp [he]
  · exact dictLookup_dictInsert_self _ _ _

theorem track_file_twice_witness :
    ((([] : Tracker).map Prod.fst).Nodup ∧ (5 : Int) ≤ 9) ∧
    ((track_file (track_file ([] : Tracker) "uploads/a.png" 5) "uploads/a.png" 9).map
        Prod.fst).count "uploads/a.png" = 1 ∧
    dictLookup (track_file (track_file ([] : Tracker) "uploads/a.png" 5)
        "uploads/a.png" 9) "uploads/a.png" = some 9 :=
  ⟨⟨List.nodup_nil, by decide⟩,
   track_file_twice [] "uploads/a.png" 5 9 List.nodup_nil (by decide)⟩

/-- C10: an artifact whose age at sweep time is exactly the expiration
window is kept by that sweep: the removal test is the strict
`current_time - timestamp > FILE_EXPIRATION`, so the boundary instant
keeps both the file and the tracking entry. -/
theorem boundary_age_keeps_artifact (remove_fails : String → Bool) (fs : FS)
    (file_tracker : Tracker) (p : String) (T now : Int)
    (htr_nd : (file_tracker.map Prod.fst).Nodup)
    (htr : dictLookup file_tracker p = some T)
    (hb : now - T = FILE_EXPIRATION) :
    dictLookup (cleanup_files_sweep remove_fails now fs file_tracker).1 p =
      dictLookup fs p ∧
    dictLookup (cleanup_files_sweep remove_fails now fs file_tracker).2 p =
      some T := by
  have hnm : p ∉ expired_files file_tracker now :=
    not_mem_expired_files file_tracker now p T htr_nd htr (by omega)
  have h := sweep_foldl_not_mem remove_fails _ (fs, file_tracker) p hnm
  unfold cleanup_files_sweep
  exact ⟨h.1, h.2.trans htr⟩

theorem boundary_age_keeps_artifact_witness :
    ((([("uploads/b.png", (0 : Int))] : Tracker).map Prod.fst).Nodup ∧
     dictLookup ([("uploads/b.png", (0 : Int))] : Tracker) "uploads/b.png" =
       some 0 ∧
     (3600 : Int) - 0 = FILE_EXPIRATION) ∧
    (dictLookup (cleanup_files_sweep (fun _ => false) 3600
        [("uploads/b.png", "IMG")] [("uploads/b.png", 0)]).1 "uploads/b.png" =
      dictLookup ([("uploads/b.png", "IMG")] : FS) "uploads/b.png" ∧
     dictLookup (cleanup_files_sweep (fun _ => false) 3600
        [("uploads/b.png", "IMG")] [("uploads/b.png", 0)]).2 "uploads/b.png" =
      some 0) :=
  ⟨⟨by decide, rfl, by decide⟩,
   boundary_age_keeps_artifact (fun _ => false) [("uploads/b.png", "IMG")]
     [("uploads/b.png", 0)] "uploads/b.png" 0 3600 (by decide) rfl (by decide)⟩

-- Full reclamation (`cleanup_all_files` in `app.py`).

/-- A directory entry as seen by `os.listdir` + `os.path.isfile`. -/
structure DirEntry where
  name : String
  isFile : Bool
  deriving DecidableEq

-- `compress_pdf` and its helpers (`conversions/pdf_converter.py`).

/-- Python `str.lower()`, character by character. -/
def strLower (s : String) : String := String.mk (s.data.map Char.toLower)

/-- `os.path.splitext(p)[0]` for ordinary file names: drop the suffix
starting at the last dot when there is one. -/
def splitextBase (p : String) : String :=
  match p.data.reverse.dropWhile (fun c => !(c == '.')) with
  | [] => p
  | _ :: rest => String.mk rest.reverse

/-- Path of the page-`i` image written by `pdf_to_images`: the f-string
`page_{i+1}.{image_format.lower()}` joined to `output_dir`. -/
def pageName (output_dir image_format : String) (i : Nat) : String :=
  output_dir ++ "/page_" ++ toString (i + 1) ++ "." ++ strLower image_format

/-- `pdf_converter.pdf_to_images`, with the external `pdf2image` codec as
parameters: `npages content` is the page count of the PDF and
`render content dpi i` the rendered page-`i` image at `dpi`.  Fails
(`none`) when the input PDF cannot be read; otherwise writes one image
file per page and returns the ordered page paths. -/
def pdf_to_images (render : String → Int → Nat → String) (npages : String → Nat)
    (fs : FS) (pdf_path output_dir : String) (dpi : Int) (image_format : String) :
    Option (List String × FS) :=
  match dictLookup fs pdf_path with
  | none => none
  | some content =>
    let items := (List.range (npages content)).map
      (fun i => (pageName output_dir image_format i, render content dpi i))
    some (items.map Prod.fst,
      items.foldl (fun acc e => dictInsert acc e.1 e.2) fs)

/-- `pdf_converter.images_to_pdf`, with the external `img2pdf` codec as
parameter `bundle` from the image contents to the combined PDF bytes.
Raises (`none`) on an empty path list, reads every image, and writes
`output_path`. -/
def images_to_pdf (bundle : List String → String) (fs : FS)
    (image_paths : List String) (output_path : String) :
    Option (String × FS) :=
  if image_paths = [] then none
  else
    match image_paths.mapM (fun p => dictLookup fs p) with
    | none => none
    | some contents =>
      some (output_path, dictInsert fs output_path (bundle contents))

/-- The `quality_dpi` table inside `compress_pdf`. -/
def quality_dpi : Dict Int := [("high", 150), ("medium", 100), ("low", 72)]

/-- `dpi = quality_dpi.get(quality.lower(), 100)`. -/
def compressDPI (quality : String) : Int :=
  (dictLookup quality_dpi (strLower quality)).getD 100

/-- `pdf_converter.compress_pdf`: pick the DPI tier from `quality`
(defaulting to 100 when the lowercased value is unknown), render the
pages to JPEG images in a temporary directory, bundle them back into a
PDF at `output_path` (default `<base>_compressed.pdf`), and remove the
temporary images (the `TemporaryDirectory` context exit). -/
def compress_pdf (render : String → Int → Nat → String) (npages : String → Nat)
    (bundle : List String → String) (fs : FS) (pdf_path : String)
    (output_path : Option String) (quality : String) : Option (String × FS) :=
  let out := output_path.getD (splitextBase pdf_path ++ "_compressed.pdf")
  let dpi := compressDPI quality
  match pdf_to_images render npages fs pdf_path "tmp" dpi "JPEG" with
  | none => none
  | some (image_paths, fs1) =>
    match images_to_pdf bundle fs1 image_paths out with
    | none => none
    | some (outp, fs2) =>
      some (outp, image_paths.foldl (fun a p => dictPop a p) fs2)

theorem dictLookup_dictInsert_isSome {α : Type} (d : Dict α) (k j : String) (v : α)
    (h : (dictLookup d j).isSome = true) :
    (dictLookup (dictInsert d k v) j).isSome = true := by
  by_cases hj : j = k
  · subst hj
    simp [dictLookup_dictInsert_self]
  · rw [dictLookup_dictInsert_ne _ _ _ _ hj]
    exact h

theorem foldl_dictInsert_preserves_isSome {α : Type} (items : List (String × α))
    (fs : Dict α) (p : String) (h : (dictLookup fs p).isSome = true) :
    (dictLookup (items.foldl (fun acc e => dictInsert acc e.1 e.2) fs) p).isSome
      = true := by
  induction items generalizing fs with
  | nil => exact h
  | cons a l ih =>
    simp only [List.foldl_cons]
    exact ih _ (dictLookup_dictInsert_isSome _ _ _ _ h)

theorem foldl_dictInsert_isSome {α : Type} (items : List (String × α))
    (fs : Dict α) (p : String) (hp : p ∈ items.map Prod.fst) :
    (dictLookup (items.foldl (fun acc e => dictInsert acc e.1 e.2) fs) p).isSome
      = true := by
  induction items generalizing fs with
  | nil => simp at hp
  | cons a l ih =>
    simp only [List.foldl_cons]
    by_cases hpa : p = a.1
    · subst hpa
      exact foldl_dictInsert_preserves_isSome l _ _
        (by simp [dictLookup_dictInsert_self])
    · have hpl : p ∈ l.map Prod.fst := by
        rw [List.map_cons] at hp
        rcases List.mem_cons.mp hp with h | h
        · exact absurd h hpa
        · exact h
      exact ih (dictInsert fs a.1 a.2) hpl

theorem mapM_dictLookup_isSome {α : Type} (l : List String) (d : Dict α)
    (h : ∀ p ∈ l, (dictLookup d p).isSome = true) :
    ∃ ys, l.mapM (fun p => dictLookup d p) = some ys := by
  induction l with
  | nil => exact ⟨[], rfl⟩
  | cons a l ih =>
    obtain ⟨v, hv⟩ := Option.isSome_iff_exists.mp (h a (List.mem_cons_self a l))
    obtain ⟨ys, hys⟩ := ih (fun p hp => h p (List.mem_cons_of_mem a hp))
    refine ⟨v :: ys, ?_⟩
    rw [List.mapM_cons, hv, hys]
    rfl

theorem foldl_dictPop_not_mem {α : Type} (l : List String) (d : Dict α)
    (k : String) (hk : k ∉ l) :
    dictLookup (l.foldl (fun a p => dictPop a p) d) k = dictLookup d k := by
  induction l generalizing d with
  | nil => rfl
  | cons a l ih =>
    simp only [List.foldl_cons]
    have hka : k ≠ a := by
      intro e
      exact hk (by simp [e])
    have hkl : k ∉ l := fun h => hk (List.mem_cons_of_mem a h)
    rw [ih (dictPop d a) hkl, dictLookup_dictPop_ne _ _ _ hka]

theorem pipeline_aux (bundle : List String → String) (fs1 : FS)
    (paths : List String) (out : String)
    (hne : paths ≠ [])
    (hsome : ∀ p ∈ paths, (dictLookup fs1 p).isSome = true)
    (hout : out ∉ paths) :
    ∃ fsx, images_to_pdf bundle fs1 paths out = some (out, fsx) ∧
      (dictLookup (paths.foldl (fun a p => dictPop a p) fsx) out).isSome = true := by
  obtain ⟨ys, hys⟩ := mapM_dictLookup_isSome paths fs1 hsome
  refine ⟨dictInsert fs1 out (bundle ys), ?_, ?_⟩
  · simp only [images_to_pdf, if_neg hne, hys]
  · rw [foldl_dictPop_not_mem paths _ out hout]
    simp [dictLookup_dictInsert_self]

/-- C9: `compress_pdf` with a quality string whose lowercase form is not
one of high/medium/low does not fail on the quality value: the DPI is the
default 100 (the medium tier), the whole run is identical to quality
"medium", and the compressed output file is still produced (given a
readable non-empty input PDF and an output path outside the temporary
image directory). -/
theorem compress_pdf_quality_fallback (render : String → Int → Nat → String)
    (npages : String → Nat) (bundle : List String → String) (fs : FS)
    (pdf_path out quality content : String)
    (hq : dictLookup quality_dpi (strLower quality) = none)
    (hpdf : dictLookup fs pdf_path = some content)
    (hn : npages content ≠ 0)
    (hout : out ∉ (List.range (npages content)).map
      (fun i => pageName "tmp" "JPEG" i)) :
    compressDPI quality = 100 ∧
    compress_pdf render npages bundle fs pdf_path (some out) quality =
      compress_pdf render npages bundle fs pdf_path (some out) "medium" ∧
    ∃ fs2, compress_pdf render npages bundle fs pdf_path (some out) quality =
      some (out, fs2) ∧ (dictLookup fs2 out).isSome = true := by
  have hdpi : compressDPI quality = 100 := by
    simp [compressDPI, hq]
  have hdpim : compressDPI "medium" = 100 := by decide
  have hpti : pdf_to_images render npages fs pdf_path "tmp"
      (compressDPI quality) "JPEG" =
      some ((((List.range (npages content)).map
          (fun i => (pageName "tmp" "JPEG" i,
            render content (compressDPI quality) i)))).map Prod.fst,
        (((List.range (npages content)).map
          (fun i => (pageName "tmp" "JPEG" i,
            render content (compressDPI quality) i)))).foldl
          (fun acc e => dictInsert acc e.1 e.2) fs) := by
    simp [pdf_to_images, hpdf]
  have hne : (((List.range (npages content)).map
      (fun i => (pageName "tmp" "JPEG" i,
        render content (compressDPI quality) i)))).map Prod.fst ≠ [] := by
    simp [hn]
  have hsome : ∀ p ∈ (((List.range (npages content)).map
      (fun i => (pageName "tmp" "JPEG" i,
        render content (compressDPI quality) i)))).map Prod.fst,
      (dictLookup ((((List.range (npages content)).map
        (fun i => (pageName "tmp" "JPEG" i,
          render content (compressDPI quality) i)))).foldl
          (fun acc e => dictInsert acc e.1 e.2) fs) p).isSome = true :=
    fun p hp => foldl_dictInsert_isSome _ fs p hp
  have hout2 : out ∉ (((List.range (npages content)).map
      (fun i => (pageName "tmp" "JPEG" i,
        render content (compressDPI quality) i)))).map Prod.fst := by
    simpa [List.map_map, Function.comp] using hout
  obtain ⟨fsx, h1, h2⟩ := pipeline_aux bundle _ _ out hne hsome hout2
  refine ⟨hdpi, ?_, ?_⟩
  · simp only [compress_pdf, hdpi, hdpim]
  · refine ⟨(((List.range (npages content)).map
      (fun i => (pageName "tmp" "JPEG" i,
        render content (compressDPI quality) i)))).map Prod.fst
        |>.foldl (fun a p => dictPop a p) fsx, ?_, h2⟩
    simp only [compress_pdf, Option.getD_some, hpti, h1]

theorem compress_pdf_quality_fallback_witness :
    (dictLookup quality_dpi (strLower "ultra") = none ∧
     dictLookup ([("in.pdf", "PDF")] : FS) "in.pdf" = some "PDF" ∧
     (fun (_ : String) => 1) "PDF" ≠ 0 ∧
     "out.pdf" ∉ (List.range ((fun (_ : String) => 1) "PDF")).map
       (fun i => pageName "tmp" "JPEG" i)) ∧
    (compressDPI "ultra" = 100 ∧
     compress_pdf (fun _ _ _ => "IMG") (fun _ => 1) (fun _ => "OUT")
         [("in.pdf", "PDF")] "in.pdf" (some "out.pdf") "ultra" =
       compress_pdf (fun _ _ _ => "IMG") (fun _ => 1) (fun _ => "OUT")
         [("in.pdf", "PDF")] "in.pdf" (some "out.pdf") "medium" ∧
     ∃ fs2, compress_pdf (fun _ _ _ => "IMG") (fun _ => 1) (fun _ => "OUT")
         [("in.pdf", "PDF")] "in.pdf" (some "out.pdf") "ultra" =
       some ("out.pdf", fs2) ∧ (dictLookup fs2 "out.pdf").isSome = true) :=
  ⟨⟨by decide, rfl, by decide, by decide⟩,
   compress_pdf_quality_fallback (fun _ _ _ => "IMG") (fun _ => 1)
     (fun _ => "OUT") [("in.pdf", "PDF")] "in.pdf" "out.pdf" "ultra" "PDF"
     (by decide) rfl (by decide) (by decide)⟩

-- Conversion web routes (`app.py`).

/-- An inbound multipart request as the routes see it. -/
structure UploadRequest where
  hasFilePart : Bool
  filename : String
  content : String
  form : Dict String

/-- The storage directory and the tracking table. -/
structure AppState where
  fs : FS
  tracker : Tracker
  deriving DecidableEq

/-- A route response: the `success` flag, HTTP status and error string. -/
structure Response where
  success : Bool
  status : Nat
  error : Option String
  deriving DecidableEq

-- The `app.py` code as it actually executes: `os` and `ConverterFactory`
-- are not defined in that module (both imports are commented out and the
-- star import from `conversions` exports only the converter modules).

/-- The outcome of a route call: either a `jsonify(...)` response the
route returns itself, or an exception escaping the route (Flask answers
with a generic 500 page). -/
inductive RouteResult where
  | resp : Response → RouteResult
  | uncaught : String → RouteResult
  deriving DecidableEq

/-- A route outcome that is not a success: an error response
(`success = false`) or an uncaught exception. -/
def aborted : RouteResult → Bool
  | RouteResult.resp r => !r.success
  | RouteResult.uncaught _ => true

/-- `convert_pdf_route` (app.py lines 188-233) as it actually executes.
The missing-file-part and empty-filename guards return their 400 JSON
before anything is written.  On every other path, line 199 evaluates
`os.path.basename(file.filename)` with `os` undefined in `app.py`, so a
`NameError` is raised OUTSIDE the route try-block and escapes:
`file.save` is never called, `track_file` is never called, the form is
never read, and the dispatch through `ConverterFactory` (itself also
undefined in `app.py`) is never reached.  The state is unchanged on
every path. -/
def convert_pdf_route_actual (req : UploadRequest) (st : AppState) :
    RouteResult × AppState :=
  if req.hasFilePart = false then
    (RouteResult.resp ⟨false, 400, some "No file part"⟩, st)
  else if req.filename = "" then
    (RouteResult.resp ⟨false, 400, some "No selected file"⟩, st)
  else
    (RouteResult.uncaught "NameError: name os is not defined", st)

/-- `convert_document_route` (app.py lines 324-373) as it actually
executes: same shape as `convert_pdf_route_actual`, with the `NameError`
raised at line 335 before `file.save`. -/
def convert_document_route_actual (req : UploadRequest) (st : AppState) :
    RouteResult × AppState :=
  if req.hasFilePart = false then
    (RouteResult.resp ⟨false, 400, some "No file part"⟩, st)
  else if req.filename = "" then
    (RouteResult.resp ⟨false, 400, some "No selected file"⟩, st)
  else
    (RouteResult.uncaught "NameError: name os is not defined", st)

/-- One iteration of the removal loop in `cleanup_files` as it actually
executes: the first expression of the `try` body,
`os.path.exists(filepath)`, raises `NameError` (`os` is undefined in
`app.py`), the per-file `except` catches and logs it, and neither
`os.remove` nor `file_tracker.pop` is ever reached.  The iteration
changes nothing. -/
def removeExpiredActual (st : FS × Tracker) (filepath : String) :
    FS × Tracker :=
  st

/-- One full sweep of `cleanup_files` as it actually executes: the scan
for expired entries (app.py lines 64-67, pure Python) works, but every
removal iteration is `removeExpiredActual`, so the sweep deletes no file
and drops no tracking entry. -/
def cleanup_files_sweep_actual (current_time : Int) (fs : FS)
    (file_tracker : Tracker) : FS × Tracker :=
  (expired_files file_tracker current_time).foldl removeExpiredActual
    (fs, file_tracker)

/-- `cleanup_all_files` (app.py lines 88-97) as it actually executes:
`os.listdir` raises `NameError` as the first statement inside the `try`,
the wrapping `except` catches and logs it, and no file is removed: the
directory contents are unchanged. -/
def cleanup_all_files_actual (dir : List DirEntry) : List DirEntry := dir

/-- C4: for every inbound conversion request whose operation name is not
registered or whose fields are malformed, the request aborts before any
file I/O with no partial state: no file is written to the storage
directory and no tracking entry is created.  This holds of the source
for a degenerate reason: a request without a file part or with an empty
filename gets its 400 before any write, and every other request — the
unknown-operation and malformed ones included — raises `NameError` at
`os.path.basename` before `file.save` and `track_file` run, so the
storage directory and the tracking table are left exactly as they were,
on every path of both routes. -/
theorem route_error_no_partial_state {κ : Type}
    (registry : ConverterFactory.Registry κ) (req : UploadRequest)
    (st : AppState) (ct : String)
    (hbad : dictLookup req.form "conversion_type" = none ∨
      (dictLookup req.form "conversion_type" = some ct ∧
        dictLookup registry ct = none)) :
    ((convert_pdf_route_actual req st).2 = st ∧
     aborted (convert_pdf_route_actual req st).1 = true) ∧
    ((convert_document_route_actual req st).2 = st ∧
     aborted (convert_document_route_actual req st).1 = true) := by
  constructor
  · unfold convert_pdf_route_actual
    split
    · exact ⟨rfl, rfl⟩
    · split
      · exact ⟨rfl, rfl⟩
      · exact ⟨rfl, rfl⟩
  · unfold convert_document_route_actual
    split
    · exact ⟨rfl, rfl⟩
    · split
      · exact ⟨rfl, rfl⟩
      · exact ⟨rfl, rfl⟩

theorem route_error_no_partial_state_witness :
    (dictLookup ([("conversion_type", "nope")] : Dict String)
        "conversion_type" = some "nope" ∧
     dictLookup ([] : ConverterFactory.Registry Unit) "nope" = none) ∧
    (((convert_pdf_route_actual
         ⟨true, "doc.pdf", "PDFBYTES", [("conversion_type", "nope")]⟩
         ⟨[], []⟩).2 = ⟨[], []⟩ ∧
      aborted (convert_pdf_route_actual
         ⟨true, "doc.pdf", "PDFBYTES", [("conversion_type", "nope")]⟩
         ⟨[], []⟩).1 = true) ∧
     ((convert_document_route_actual
         ⟨true, "doc.pdf", "PDFBYTES", [("conversion_type", "nope")]⟩
         ⟨[], []⟩).2 = ⟨[], []⟩ ∧
      aborted (convert_document_route_actual
         ⟨true, "doc.pdf", "PDFBYTES", [("conversion_type", "nope")]⟩
         ⟨[], []⟩).1 = true)) :=
  ⟨⟨rfl, rfl⟩,
   route_error_no_partial_state ([] : ConverterFactory.Registry Unit)
     ⟨true, "doc.pdf", "PDFBYTES", [("conversion_type", "nope")]⟩
     ⟨[], []⟩ "nope" (Or.inr ⟨rfl, rfl⟩)⟩

/-- C5: the sweep as it actually executes, evaluated at the failing
input: an artifact tracked at T = 1000 with its file present, one sweep
run at T + FILE_EXPIRATION + 1.  The claim requires both the file and
the tracking entry to be gone; in fact every removal iteration raises
`NameError` into its `except` before `os.remove` and `file_tracker.pop`,
so the sweep leaves both exactly in place — it can never remove
anything.  The expiry behaviour the spec states is plainly the intent
(the code declares `FILE_EXPIRATION`, runs the sweep thread, and logs
removals); the commented-out `os` import is the slip that breaks it. -/
theorem expiry_sweep_removes_nothing :
    (4601 : Int) - 1000 > FILE_EXPIRATION ∧
    cleanup_files_sweep_actual 4601 [("uploads/a.png", "IMG")]
        [("uploads/a.png", 1000)] =
      ([("uploads/a.png", "IMG")], [("uploads/a.png", 1000)]) :=
  ⟨by decide, rfl⟩

/-- C7: `cleanup_all_files` as it actually executes, evaluated at the
failing input: a storage directory holding five regular files.  The
claim requires all five removed and the directory left empty; the real
function raises `NameError` at `os.listdir` straight into its `except`
and removes nothing — all five files are still there.  Even with the
`os` import restored, the single `try/except` wraps the whole loop, so
one failing removal would abort the remaining iterations, against the
per-file tolerance the claim also asserts. -/
theorem reclaim_all_removes_nothing :
    cleanup_all_files_actual
        [⟨"f1.pdf", true⟩, ⟨"f2.pdf", true⟩, ⟨"f3.pdf", true⟩,
         ⟨"f4.pdf", true⟩, ⟨"f5.pdf", true⟩] =
      [⟨"f1.pdf", true⟩, ⟨"f2.pdf", true⟩, ⟨"f3.pdf", true⟩,
       ⟨"f4.pdf", true⟩, ⟨"f5.pdf", true⟩] ∧
    DirEntry.mk "f1.pdf" true ∈ cleanup_all_files_actual
        [⟨"f1.pdf", true⟩, ⟨"f2.pdf", true⟩, ⟨"f3.pdf", true⟩,
         ⟨"f4.pdf", true⟩, ⟨"f5.pdf", true⟩] :=
  ⟨rfl, by decide⟩

/-- C8: the sweep as it actually executes, evaluated at the failing
input: an expired tracked artifact whose underlying deletion fails —
and from `app.py` every deletion fails, with `NameError` raised at
`os.path.exists` before `os.remove` is even attempted.  The claim
requires the tracking entry to be removed anyway; in fact
`file_tracker.pop` sits after the raising code inside the `try`, so the
entry survives the sweep and the very same artifact is retried on every
later pass — the sweep IS stuck.  Even with the `os` import restored, a
raising `os.remove` on an existing file would skip the `pop` for the
same structural reason. -/
theorem failed_deletion_entry_retained :
    (4000 : Int) - 0 > FILE_EXPIRATION ∧
    dictLookup (cleanup_files_sweep_actual 4000 [("uploads/f.pdf", "bytes")]
        [("uploads/f.pdf", 0)]).2 "uploads/f.pdf" = some 0 ∧
    dictLookup (cleanup_files_sweep_actual 4000 [("uploads/f.pdf", "bytes")]
        [("uploads/f.pdf", 0)]).1 "uploads/f.pdf" = some "bytes" :=
  ⟨by decide, rfl, rfl⟩
